import Mathlib

/-!
Shallow embedding of the ride-pooling matching core of the `alike` repository:
the detour solver (`packages/db/src/queries/detour.ts`), the assignment /
pool-creation / cancellation transactions and the candidate-scoring loop
(`queries/rides.ts`), and the dispatch handler (`events.ts`).

Coordinates and distances are rationals.  The haversine point distance
(`calculateDistance`) is transcendental, so every routine that consumes it is
parameterised by an abstract pointwise distance function `Dist`; theorems
quantify over it and concrete witnesses instantiate it with a computable
distance.  Database rows are explicit records; each transaction is a pure
function from the rows it reads (the results of its SELECTs) to the rows it
writes, with early-return error branches leaving the rows unchanged, mirroring
transaction rollback.
-/

namespace Alike

inductive WType
  | pickup
  | dropoff
deriving DecidableEq

inductive Direction
  | airport_to_city
  | city_to_airport
deriving DecidableEq

structure Location where
  lat : ℚ
  lng : ℚ
deriving DecidableEq

/-- `Waypoint` from `detour.ts` (no owning ride id). -/
structure Waypoint where
  lat : ℚ
  lng : ℚ
  type : WType
  sequence : ℤ
deriving DecidableEq

/-- Abstract pointwise distance `(lat1, lng1, lat2, lng2) ↦ km`, standing for
the haversine `calculateDistance` of `detour.ts`, which is transcendental. -/
abbrev Dist := ℚ → ℚ → ℚ → ℚ → ℚ

/-- `calculateRouteDistance` of `detour.ts`: sum of consecutive leg
distances; fewer than two waypoints give 0. -/
def calculateRouteDistance (dist : Dist) : List Waypoint → ℚ
  | [] => 0
  | [_] => 0
  | a :: b :: rest => dist a.lat a.lng b.lat b.lng + calculateRouteDistance dist (b :: rest)

/-- The running minimum of the JS loop
`let m = Infinity; for v of xs: if (v < m) m = v;`. -/
def jsMinFold (m : WithTop ℚ) (xs : List ℚ) : WithTop ℚ :=
  xs.foldl (fun acc (v : ℚ) => if (v : WithTop ℚ) < acc then (v : WithTop ℚ) else acc) m

/-- Result record of the detour solver; `detourKm = ⊤` models JS `Infinity`. -/
structure DetourResult where
  canAdd : Bool
  detourKm : WithTop ℚ
deriving DecidableEq

/-- The candidate route `calculateCityToAirportDetour` builds when inserting
the new pickup at position `i` among the existing pickups, the anchor dropoff
closing the route (source lines: `[...pickups.slice(0,i), newPickup,
...pickups.slice(i) resequenced, airport]`). -/
def cityInsertion (pickups : List Waypoint) (airport : Waypoint)
    (newPickup : Location) (i : ℕ) : List Waypoint :=
  pickups.take i
    ++ [⟨newPickup.lat, newPickup.lng, WType.pickup, (i : ℤ) + 1⟩]
    ++ (pickups.drop i).mapIdx (fun idx p => { p with sequence := (i : ℤ) + idx + 2 })
    ++ [airport]

/-- The candidate route `calculateAirportToCityDetour` builds when inserting
the new dropoff at position `i` among the existing dropoffs, the anchor pickup
opening the route. -/
def airportInsertion (airport : Waypoint) (dropoffs : List Waypoint)
    (newDropoff : Location) (i : ℕ) : List Waypoint :=
  [airport]
    ++ dropoffs.take i
    ++ [⟨newDropoff.lat, newDropoff.lng, WType.dropoff, (i : ℤ) + 2⟩]
    ++ (dropoffs.drop i).mapIdx (fun idx d => { d with sequence := (i : ℤ) + idx + 3 })

/-- `calculateCityToAirportDetour` of `detour.ts`. -/
def calculateCityToAirportDetour (dist : Dist) (existingWaypoints : List Waypoint)
    (newPickup : Location) (maxDetourKm : ℚ) : DetourResult :=
  if existingWaypoints.length = 0 then
    ⟨true, ((0 : ℚ) : WithTop ℚ)⟩
  else
    let pickups := existingWaypoints.filter (fun w => w.type == WType.pickup)
    match existingWaypoints.find? (fun w => w.type == WType.dropoff) with
    | none => ⟨false, ⊤⟩
    | some airport =>
      let currentDistance := calculateRouteDistance dist existingWaypoints
      let minNewDistance := jsMinFold ⊤ ((List.range (pickups.length + 1)).map
        (fun i => calculateRouteDistance dist (cityInsertion pickups airport newPickup i)))
      let detourKm := minNewDistance.map (fun q => q - currentDistance)
      ⟨decide (detourKm ≤ (maxDetourKm : WithTop ℚ)), detourKm⟩

/-- `calculateAirportToCityDetour` of `detour.ts`. -/
def calculateAirportToCityDetour (dist : Dist) (existingWaypoints : List Waypoint)
    (newDropoff : Location) (maxDetourKm : ℚ) : DetourResult :=
  if existingWaypoints.length = 0 then
    ⟨true, ((0 : ℚ) : WithTop ℚ)⟩
  else
    let dropoffs := existingWaypoints.filter (fun w => w.type == WType.dropoff)
    match existingWaypoints.find? (fun w => w.type == WType.pickup) with
    | none => ⟨false, ⊤⟩
    | some airport =>
      let currentDistance := calculateRouteDistance dist existingWaypoints
      let minNewDistance := jsMinFold ⊤ ((List.range (dropoffs.length + 1)).map
        (fun i => calculateRouteDistance dist (airportInsertion airport dropoffs newDropoff i)))
      let detourKm := minNewDistance.map (fun q => q - currentDistance)
      ⟨decide (detourKm ≤ (maxDetourKm : WithTop ℚ)), detourKm⟩

/-- `calculateOptimalDetour` of `detour.ts`: dispatch on direction. -/
def calculateOptimalDetour (dist : Dist) (existingWaypoints : List Waypoint)
    (newPickup newDropoff : Location) (direction : Direction)
    (maxDetourKm : ℚ) : DetourResult :=
  match direction with
  | Direction.city_to_airport =>
    calculateCityToAirportDetour dist existingWaypoints newPickup maxDetourKm
  | Direction.airport_to_city =>
    calculateAirportToCityDetour dist existingWaypoints newDropoff maxDetourKm

-- ===========================================================================
-- Data model (schema rows used by the matching core)
-- ===========================================================================

inductive RideStatus
  | pending
  | matched
  | confirmed
  | driver_arrived
  | ongoing
  | completed
  | cancelled
deriving DecidableEq

inductive PoolStatus
  | forming
  | locked
  | confirmed
  | driver_assigned
  | driver_arrived
  | ongoing
  | completed
  | cancelled
deriving DecidableEq

inductive DriverStatus
  | offline
  | available
  | assigned
  | busy
deriving DecidableEq

/-- A pool waypoint as stored in `pools.waypoints` (jsonb), with owning ride. -/
structure PoolWaypoint where
  lat : ℚ
  lng : ℚ
  type : WType
  rideRequestId : ℕ
  sequence : ℤ
deriving DecidableEq

structure Pool where
  id : ℕ
  driverId : Option ℕ
  maxSeats : ℤ
  maxLuggage : ℤ
  filledSeats : ℤ
  filledLuggage : ℤ
  waypoints : List PoolWaypoint
  status : PoolStatus
  direction : Direction
  centerLat : ℚ
  centerLng : ℚ
  version : ℤ
  driverArrivedAt : Option ℕ
  lockedAt : Option ℕ
deriving DecidableEq

structure RideRequest where
  id : ℕ
  seats : ℤ
  luggage : ℤ
  pickupLat : ℚ
  pickupLng : ℚ
  dropoffLat : ℚ
  dropoffLng : ℚ
  maxDetourKm : ℚ
  status : RideStatus
  poolId : Option ℕ
  individualPrice : Option ℚ
  matchedAt : Option ℕ
  cancelledAt : Option ℕ
  cancellationReason : Option String
deriving DecidableEq

structure Driver where
  id : ℕ
  status : DriverStatus
  currentLat : Option ℚ
  currentLng : Option ℚ
deriving DecidableEq

structure Vehicle where
  driverId : ℕ
  maxSeats : ℤ
  maxLuggage : ℤ
deriving DecidableEq

-- ===========================================================================
-- queries/rides.ts helpers
-- ===========================================================================

/-- `calculatePoolCenter` of `queries/rides.ts`. -/
def calculatePoolCenter (waypoints : List PoolWaypoint) : Location :=
  if waypoints.length = 0 then ⟨0, 0⟩
  else
    let sumLat := waypoints.foldl (fun sum wp => sum + wp.lat) 0
    let sumLng := waypoints.foldl (fun sum wp => sum + wp.lng) 0
    ⟨sumLat / waypoints.length, sumLng / waypoints.length⟩

/-- `calculateDetour` of `queries/rides.ts`: score one candidate pool; pools
with fewer than two stored waypoints score 0; otherwise the stored waypoints
are resequenced and handed to the optimal-detour solver with the hard-coded
3 km tolerance, and only `detourKm` is kept (`canAdd` is dropped). -/
def calculateDetour (dist : Dist) (pool : Pool)
    (newPickupLat newPickupLng newDropoffLat newDropoffLng : ℚ)
    (direction : Direction) : WithTop ℚ :=
  let waypoints := pool.waypoints
  if waypoints.length < 2 then ((0 : ℚ) : WithTop ℚ)
  else
    let existingWaypoints : List Waypoint :=
      waypoints.mapIdx (fun index w => ⟨w.lat, w.lng, w.type, (index : ℤ) + 1⟩)
    (calculateOptimalDetour dist existingWaypoints ⟨newPickupLat, newPickupLng⟩
      ⟨newDropoffLat, newDropoffLng⟩ direction 3).detourKm

/-- The scoring loop of `findBestPool`: running `minDetour` starts at
`Infinity`, each candidate is scored by `calculateDetour`, and a strictly
smaller score replaces the current best. -/
def findBestPoolLoop (dist : Dist)
    (pickupLat pickupLng dropoffLat dropoffLng : ℚ) (direction : Direction) :
    List Pool → WithTop ℚ → Option Pool → Option Pool
  | [], _, bestPool => bestPool
  | pool :: rest, minDetour, bestPool =>
    let detour := calculateDetour dist pool pickupLat pickupLng dropoffLat dropoffLng direction
    if detour < minDetour then
      findBestPoolLoop dist pickupLat pickupLng dropoffLat dropoffLng direction rest detour (some pool)
    else
      findBestPoolLoop dist pickupLat pickupLng dropoffLat dropoffLng direction rest minDetour bestPool

/-- `findBestPool` of `queries/rides.ts`.  The SQL spatial query (status,
direction, capacity and radius filters, closest-first order, `LIMIT 10`) runs
in the database; its result list is the `availablePools` argument here, and
`seats`/`luggage` appear only in that query.  An empty result returns
`undefined`; otherwise the scoring loop picks the minimum-detour candidate. -/
def findBestPool (dist : Dist) (availablePools : List Pool)
    (pickupLat pickupLng dropoffLat dropoffLng : ℚ) (seats luggage : ℤ)
    (direction : Direction) : Option Pool :=
  if availablePools.length = 0 then none
  else findBestPoolLoop dist pickupLat pickupLng dropoffLat dropoffLng direction
    availablePools ⊤ none

-- ===========================================================================
-- assignRideToPool
-- ===========================================================================

inductive AssignOutcome
  | success
  | failure (error : String)
deriving DecidableEq

/-- Post-transaction state of `assignRideToPool`: the discriminated result
plus the pool and ride rows as they stand after the transaction (error
branches leave them as read). -/
structure AssignResult where
  outcome : AssignOutcome
  pool : Option Pool
  ride : Option RideRequest
deriving DecidableEq

/-- The two waypoints `assignRideToPool` appends: `[...pool.waypoints,
pickup (sequence len+1), dropoff (sequence len+2)]`. -/
def assignNewWaypoints (pool : Pool) (ride : RideRequest) : List PoolWaypoint :=
  pool.waypoints ++
    [⟨ride.pickupLat, ride.pickupLng, WType.pickup, ride.id,
        (pool.waypoints.length : ℤ) + 1⟩,
      ⟨ride.dropoffLat, ride.dropoffLng, WType.dropoff, ride.id,
        (pool.waypoints.length : ℤ) + 2⟩]

/-- `assignRideToPool` of `queries/rides.ts`.  `poolRow`/`rideRow` are the
rows its two SELECTs return (the pool one under `FOR UPDATE`); `now` stands
for `new Date()`. -/
def assignRideToPool (poolRow : Option Pool) (rideRow : Option RideRequest)
    (price : ℚ) (now : ℕ) : AssignResult :=
  match poolRow with
  | none => ⟨AssignOutcome.failure ("Pool not found"), none, rideRow⟩
  | some pool =>
    match rideRow with
    | none => ⟨AssignOutcome.failure ("Ride not found"), some pool, none⟩
    | some ride =>
      if pool.filledSeats + ride.seats > pool.maxSeats then
        ⟨AssignOutcome.failure ("Not enough seats"), some pool, some ride⟩
      else if pool.filledLuggage + ride.luggage > pool.maxLuggage then
        ⟨AssignOutcome.failure ("Not enough luggage space"), some pool, some ride⟩
      else
        let updatedWaypoints := assignNewWaypoints pool ride
        let newCenter := calculatePoolCenter updatedWaypoints
        let updatedPool := { pool with
          filledSeats := pool.filledSeats + ride.seats
          filledLuggage := pool.filledLuggage + ride.luggage
          waypoints := updatedWaypoints
          centerLat := newCenter.lat
          centerLng := newCenter.lng
          version := pool.version + 1 }
        let updatedRide := { ride with
          poolId := some pool.id
          individualPrice := some price
          status := RideStatus.matched
          matchedAt := some now }
        ⟨AssignOutcome.success, some updatedPool, some updatedRide⟩

-- ===========================================================================
-- createPoolForRide
-- ===========================================================================

/-- Result record of `createPoolForRide` plus the post-transaction state of
the initiating ride row (error branches leave it untouched). -/
structure CreatePoolResult where
  pool : Option Pool
  driver : Option Driver
  error : Option String
  ride : RideRequest
deriving DecidableEq

structure RideData where
  pickupLat : ℚ
  pickupLng : ℚ
  dropoffLat : ℚ
  dropoffLng : ℚ
  seats : ℤ
  luggage : ℤ
  direction : Direction
deriving DecidableEq

/-- JS `x || d` on an optionally-present number: `undefined` and `0` fall
back to the default (`vehicle?.maxSeats || 4`). -/
def jsOrDefault (x : Option ℤ) (d : ℤ) : ℤ :=
  match x with
  | none => d
  | some v => if v = 0 then d else v

/-- `createPoolForRide` of `queries/rides.ts`.  `nearestDriverId` is the row
the nearest-available-driver SQL returns; `driverRow` is the same driver
re-read under `FOR UPDATE`; `vehicleRow` the driver's vehicle; `newPoolId` the
id the INSERT generates; `now` stands for `new Date()`. -/
def createPoolForRide (nearestDriverId : Option ℕ) (driverRow : Option Driver)
    (vehicleRow : Option Vehicle) (ride : RideRequest) (rideData : RideData)
    (newPoolId : ℕ) (now : ℕ) : CreatePoolResult :=
  match nearestDriverId with
  | none => ⟨none, none, some ("No available drivers nearby"), ride⟩
  | some _ =>
    match driverRow with
    | none => ⟨none, none, some ("Driver no longer available"), ride⟩
    | some driver =>
      if driver.status ≠ DriverStatus.available then
        ⟨none, none, some ("Driver no longer available"), ride⟩
      else
        let maxSeats := jsOrDefault (vehicleRow.map Vehicle.maxSeats) 4
        let maxLuggage := jsOrDefault (vehicleRow.map Vehicle.maxLuggage) 4
        if rideData.seats > maxSeats ∨ rideData.luggage > maxLuggage then
          ⟨none, none, some ("Ride exceeds vehicle capacity"), ride⟩
        else
          let waypoints : List PoolWaypoint :=
            [⟨rideData.pickupLat, rideData.pickupLng, WType.pickup, ride.id, 1⟩,
              ⟨rideData.dropoffLat, rideData.dropoffLng, WType.dropoff, ride.id, 2⟩]
          let center := calculatePoolCenter waypoints
          let pool : Pool := {
            id := newPoolId
            driverId := some driver.id
            maxSeats := maxSeats
            maxLuggage := maxLuggage
            filledSeats := rideData.seats
            filledLuggage := rideData.luggage
            waypoints := waypoints
            status := PoolStatus.forming
            direction := rideData.direction
            centerLat := center.lat
            centerLng := center.lng
            version := 0
            driverArrivedAt := none
            lockedAt := none }
          let updatedRide := { ride with
            poolId := some newPoolId
            individualPrice := some 15
            status := RideStatus.matched
            matchedAt := some now }
          ⟨some pool, some { driver with status := DriverStatus.assigned }, none, updatedRide⟩

-- ===========================================================================
-- cancelPoolForRide
-- ===========================================================================

/-- Result record of `cancelPoolForRide` (`{ success, error?, fee? }`) plus
the post-transaction ride row and, when a bound pool row was read, its
post-transaction state. -/
structure CancelResult where
  success : Bool
  error : Option String
  fee : Option ℚ
  ride : Option RideRequest
  pool : Option Pool
deriving DecidableEq

/-- `cancelPoolForRide` of `queries/rides.ts`.  `rideRow` is the ride lookup
result; `poolLookup` the `SELECT ... FOR UPDATE` on `ride.poolId`; `now`
stands for `new Date()`. -/
def cancelPoolForRide (rideRow : Option RideRequest)
    (poolLookup : ℕ → Option Pool) (now : ℕ) : CancelResult :=
  match rideRow with
  | none => ⟨false, some ("Ride not found"), none, none, none⟩
  | some ride =>
    if ride.status = RideStatus.completed ∨ ride.status = RideStatus.cancelled then
      ⟨false, some ("Ride already completed or cancelled"), none, some ride, none⟩
    else
      let feeAndPool : ℚ × Option Pool :=
        match ride.poolId with
        | none => (0, none)
        | some poolId =>
          match poolLookup poolId with
          | none => (0, none)
          | some pool =>
            let cancellationFee : ℚ :=
              if pool.status = PoolStatus.driver_arrived ∨ pool.driverArrivedAt ≠ none
              then 5 else 0
            let updatedPool :=
              if ride.status = RideStatus.matched then
                { pool with
                  filledSeats := pool.filledSeats - ride.seats
                  filledLuggage := pool.filledLuggage - ride.luggage }
              else pool
            (cancellationFee, some updatedPool)
      let updatedRide := { ride with
        status := RideStatus.cancelled
        cancelledAt := some now
        cancellationReason := some ("User cancelled") }
      ⟨true, none, some feeAndPool.1, some updatedRide, feeAndPool.2⟩

-- ===========================================================================
-- processRideMatching (events.ts dispatch handler)
-- ===========================================================================

inductive MatchStep
  | searchPools
  | assignAttempt (poolId : ℕ)
  | markPoolFull (poolId : ℕ)
  | createPool
deriving DecidableEq

inductive MatchOutcome
  | matched (poolId : ℕ)
  | pooled
deriving DecidableEq

/-- `processRideMatching` of `events.ts`, as the sequence of store operations
one dispatch attempt performs plus its outcome.  `found` abstracts the
database answer of `findBestPool`; `assignSucceeds` the `success` flag of
`assignRideToPool`; `seats` is the job's seat demand (used by the
pool-now-full check `filledSeats + seats >= maxSeats`). -/
def processRideMatching (found : Option Pool) (seats : ℤ)
    (assignSucceeds : Bool) : List MatchStep × MatchOutcome :=
  match found with
  | none => ([MatchStep.searchPools, MatchStep.createPool], MatchOutcome.pooled)
  | some existingPool =>
    if assignSucceeds then
      if existingPool.filledSeats + seats ≥ existingPool.maxSeats then
        ([MatchStep.searchPools, MatchStep.assignAttempt existingPool.id,
            MatchStep.markPoolFull existingPool.id],
          MatchOutcome.matched existingPool.id)
      else
        ([MatchStep.searchPools, MatchStep.assignAttempt existingPool.id],
          MatchOutcome.matched existingPool.id)
    else
      ([MatchStep.searchPools, MatchStep.assignAttempt existingPool.id,
          MatchStep.createPool],
        MatchOutcome.pooled)

-- ===========================================================================
-- Spec-side predicates
-- ===========================================================================

/-- The capacity invariant of the spec: `filledSeats ≤ maxSeats` and
`filledLuggage ≤ maxLuggage`. -/
def poolCapacityOk (p : Pool) : Prop :=
  p.filledSeats ≤ p.maxSeats ∧ p.filledLuggage ≤ p.maxLuggage

/-- The to-anchor ordering invariant of the spec: the sequence holds exactly
one (anchor) dropoff and every pickup precedes every dropoff. -/
def toAnchorOrdered (ws : List PoolWaypoint) : Prop :=
  (ws.filter (fun w => w.type == WType.dropoff)).length = 1 ∧
  ∀ i j : Fin ws.length,
    (ws.get i).type = WType.dropoff → (ws.get j).type = WType.pickup → (j : ℕ) < (i : ℕ)

instance (ws : List PoolWaypoint) : Decidable (toAnchorOrdered ws) := by
  unfold toAnchorOrdered; infer_instance

-- ===========================================================================
-- Concrete rows for witnesses and counterexamples
-- ===========================================================================

/-- A concrete computable pointwise distance (taxicab), used to instantiate
the abstract `Dist` parameter on concrete inputs. -/
def taxicab : Dist := fun lat1 lng1 lat2 lng2 =>
  max (lat2 - lat1) (lat1 - lat2) + max (lng2 - lng1) (lng1 - lng2)

def exPool : Pool :=
  { id := 1
    driverId := some 1
    maxSeats := 4
    maxLuggage := 4
    filledSeats := 2
    filledLuggage := 2
    waypoints := []
    status := PoolStatus.forming
    direction := Direction.city_to_airport
    centerLat := 0
    centerLng := 0
    version := 0
    driverArrivedAt := none
    lockedAt := none }

def exRide : RideRequest :=
  { id := 9
    seats := 1
    luggage := 1
    pickupLat := 3
    pickupLng := 4
    dropoffLat := 0
    dropoffLng := 2
    maxDetourKm := 3
    status := RideStatus.pending
    poolId := none
    individualPrice := none
    matchedAt := none
    cancelledAt := none
    cancellationReason := none }

/-- A ride already matched into pool 99. -/
def exMatchedRide : RideRequest :=
  { exRide with
    status := RideStatus.matched
    poolId := some 99
    individualPrice := some 12
    matchedAt := some 5 }

/-- A well-formed to-anchor pool: one pickup, then the anchor dropoff. -/
def exAnchoredPool : Pool :=
  { exPool with waypoints :=
      [⟨1, 1, WType.pickup, 3, 1⟩, ⟨5, 5, WType.dropoff, 3, 2⟩] }

/-- A candidate pool whose stored route is `(0,0) → (0,2)`; a far-away new
pickup gives it a large detour score. -/
def exDetourPool : Pool :=
  { exPool with waypoints :=
      [⟨0, 0, WType.pickup, 1, 1⟩, ⟨0, 2, WType.dropoff, 1, 2⟩] }

/-- A pool whose driver has arrived (cancellation-fee case). -/
def exArrivedPool : Pool :=
  { exPool with
    id := 7
    status := PoolStatus.driver_arrived
    driverArrivedAt := some 11 }

/-- Existing detour-solver route: one pickup at `(0,0)`, anchor at `(0,2)`. -/
def exRoute : List Waypoint :=
  [⟨0, 0, WType.pickup, 1⟩, ⟨0, 2, WType.dropoff, 2⟩]

/-- A matched ride bound to pool 7 (cancellation-with-release case). -/
def exBoundRide : RideRequest := { exMatchedRide with poolId := some 7 }

def exDriver : Driver :=
  { id := 1, status := DriverStatus.available, currentLat := some 0, currentLng := some 0 }

/-- A small vehicle: two seats, two luggage slots. -/
def exVehicle : Vehicle := { driverId := 1, maxSeats := 2, maxLuggage := 2 }

/-- Dispatch payload demanding three seats (exceeds `exVehicle`). -/
def exRideData : RideData :=
  { pickupLat := 3, pickupLng := 4, dropoffLat := 0, dropoffLng := 2,
    seats := 3, luggage := 1, direction := Direction.city_to_airport }

/-- The pool row `assignRideToPool` produces from `exAnchoredPool` and
`exRide`: the ride's pickup and dropoff are appended after the anchor. -/
def exAppendedPool : Pool :=
  { exAnchoredPool with
    filledSeats := 3
    filledLuggage := 3
    waypoints :=
      [⟨1, 1, WType.pickup, 3, 1⟩, ⟨5, 5, WType.dropoff, 3, 2⟩,
        ⟨3, 4, WType.pickup, 9, 3⟩, ⟨0, 2, WType.dropoff, 9, 4⟩]
    centerLat := 9 / 4
    centerLng := 3
    version := 1 }

/-- The pool row `assignRideToPool` produces from `exPool` and `exRide`. -/
def exAssignedPool : Pool :=
  { exPool with
    filledSeats := 3
    filledLuggage := 3
    waypoints := [⟨3, 4, WType.pickup, 9, 1⟩, ⟨0, 2, WType.dropoff, 9, 2⟩]
    centerLat := 3 / 2
    centerLng := 3
    version := 1 }

-- ===========================================================================
-- Helper lemmas: the JS running-minimum loop
-- ===========================================================================

lemma jsMinFold_cons (m : WithTop ℚ) (v : ℚ) (t : List ℚ) :
    jsMinFold m (v :: t)
      = jsMinFold (if (v : WithTop ℚ) < m then (v : WithTop ℚ) else m) t := rfl

lemma jsMinFold_le_init : ∀ (xs : List ℚ) (m : WithTop ℚ), jsMinFold m xs ≤ m
  | [], m => le_refl m
  | v :: t, m => by
    rw [jsMinFold_cons]
    by_cases h : (v : WithTop ℚ) < m
    · rw [if_pos h]
      exact le_trans (jsMinFold_le_init t _) (le_of_lt h)
    · rw [if_neg h]
      exact jsMinFold_le_init t m

lemma jsMinFold_le_mem : ∀ (xs : List ℚ) (m : WithTop ℚ) (v : ℚ),
    v ∈ xs → jsMinFold m xs ≤ (v : WithTop ℚ)
  | v' :: t, m, v, h => by
    rw [jsMinFold_cons]
    rcases List.mem_cons.mp h with h1 | h2
    · subst h1
      by_cases hv : (v : WithTop ℚ) < m
      · rw [if_pos hv]
        exact jsMinFold_le_init t _
      · rw [if_neg hv]
        exact le_trans (jsMinFold_le_init t m) (le_of_not_lt hv)
    · by_cases hv : (v' : WithTop ℚ) < m
      · rw [if_pos hv]
        exact jsMinFold_le_mem t _ v h2
      · rw [if_neg hv]
        exact jsMinFold_le_mem t m v h2

lemma jsMinFold_eq_init_or_mem : ∀ (xs : List ℚ) (m : WithTop ℚ),
    jsMinFold m xs = m ∨ ∃ v ∈ xs, jsMinFold m xs = (v : WithTop ℚ)
  | [], _ => Or.inl rfl
  | v' :: t, m => by
    rw [jsMinFold_cons]
    by_cases hv : (v' : WithTop ℚ) < m
    · rw [if_pos hv]
      rcases jsMinFold_eq_init_or_mem t (v' : WithTop ℚ) with h | ⟨w, hw, he⟩
      · exact Or.inr ⟨v', List.mem_cons_self v' t, h⟩
      · exact Or.inr ⟨w, List.mem_cons_of_mem _ hw, he⟩
    · rw [if_neg hv]
      rcases jsMinFold_eq_init_or_mem t m with h | ⟨w, hw, he⟩
      · exact Or.inl h
      · exact Or.inr ⟨w, List.mem_cons_of_mem _ hw, he⟩

/-- The running minimum over `f 0, …, f n` is attained at some index and
bounds every index: the loop really computes the minimum. -/
lemma jsMinFold_range_spec (f : ℕ → ℚ) (n : ℕ) :
    ∃ i ≤ n, jsMinFold ⊤ ((List.range (n + 1)).map f) = ((f i : ℚ) : WithTop ℚ) ∧
      ∀ j ≤ n, f i ≤ f j := by
  rcases jsMinFold_eq_init_or_mem ((List.range (n + 1)).map f) ⊤ with h | ⟨v, hv, he⟩
  · exfalso
    have h0 : jsMinFold ⊤ ((List.range (n + 1)).map f) ≤ ((f 0 : ℚ) : WithTop ℚ) :=
      jsMinFold_le_mem _ _ _ (List.mem_map_of_mem f (List.mem_range.mpr (Nat.succ_pos n)))
    rw [h] at h0
    exact (WithTop.coe_ne_top (a := f 0)) (top_le_iff.mp h0)
  · rcases List.mem_map.mp hv with ⟨i, hi, rfl⟩
    have hin : i ≤ n := Nat.lt_succ_iff.mp (List.mem_range.mp hi)
    refine ⟨i, hin, he, fun j hj => ?_⟩
    have hle := jsMinFold_le_mem ((List.range (n + 1)).map f) ⊤ (f j)
      (List.mem_map_of_mem f (List.mem_range.mpr (Nat.lt_succ_iff.mpr hj)))
    rw [he] at hle
    exact_mod_cast hle

-- ===========================================================================
-- Helper lemmas: reducing the detour solver on its main branch
-- ===========================================================================

lemma city_detour_eq (dist : Dist) (ws : List Waypoint) (newPickup : Location)
    (maxDetourKm : ℚ) (airport : Waypoint) (hne : ws ≠ [])
    (hf : ws.find? (fun w => w.type == WType.dropoff) = some airport) :
    calculateCityToAirportDetour dist ws newPickup maxDetourKm =
      ⟨decide ((jsMinFold ⊤ ((List.range ((ws.filter (fun w => w.type == WType.pickup)).length + 1)).map
            (fun i => calculateRouteDistance dist
              (cityInsertion (ws.filter (fun w => w.type == WType.pickup)) airport newPickup i)))).map
            (fun q => q - calculateRouteDistance dist ws) ≤ (maxDetourKm : WithTop ℚ)),
        (jsMinFold ⊤ ((List.range ((ws.filter (fun w => w.type == WType.pickup)).length + 1)).map
            (fun i => calculateRouteDistance dist
              (cityInsertion (ws.filter (fun w => w.type == WType.pickup)) airport newPickup i)))).map
            (fun q => q - calculateRouteDistance dist ws)⟩ := by
  unfold calculateCityToAirportDetour
  rw [if_neg (mt List.length_eq_zero.mp hne), hf]

lemma airport_detour_eq (dist : Dist) (ws : List Waypoint) (newDropoff : Location)
    (maxDetourKm : ℚ) (airport : Waypoint) (hne : ws ≠ [])
    (hf : ws.find? (fun w => w.type == WType.pickup) = some airport) :
    calculateAirportToCityDetour dist ws newDropoff maxDetourKm =
      ⟨decide ((jsMinFold ⊤ ((List.range ((ws.filter (fun w => w.type == WType.dropoff)).length + 1)).map
            (fun i => calculateRouteDistance dist
              (airportInsertion airport (ws.filter (fun w => w.type == WType.dropoff)) newDropoff i)))).map
            (fun q => q - calculateRouteDistance dist ws) ≤ (maxDetourKm : WithTop ℚ)),
        (jsMinFold ⊤ ((List.range ((ws.filter (fun w => w.type == WType.dropoff)).length + 1)).map
            (fun i => calculateRouteDistance dist
              (airportInsertion airport (ws.filter (fun w => w.type == WType.dropoff)) newDropoff i)))).map
            (fun q => q - calculateRouteDistance dist ws)⟩ := by
  unfold calculateAirportToCityDetour
  rw [if_neg (mt List.length_eq_zero.mp hne), hf]

-- ===========================================================================
-- Claim C2
-- ===========================================================================

/-- C2: For every non-empty existing waypoint list containing its anchor
(the first dropoff for city_to_airport, the first pickup for airport_to_city),
`calculateOptimalDetour` returns `detourKm` equal to the minimum, over all
insertion positions of the new stop among the existing same-role waypoints
with the anchor at its anchor position, of the resulting total route length
minus the current route length; `canAdd` is true iff
`detourKm ≤ maxDetourKm`; an empty existing list yields `detourKm 0` with
`canAdd` true; a list missing its anchor yields `canAdd` false. -/
theorem claim2_detour_is_minimum (dist : Dist) (ws : List Waypoint)
    (newPickup newDropoff : Location) (maxDetourKm : ℚ) :
    (ws = [] →
      calculateOptimalDetour dist ws newPickup newDropoff Direction.city_to_airport maxDetourKm
        = ⟨true, ((0 : ℚ) : WithTop ℚ)⟩ ∧
      calculateOptimalDetour dist ws newPickup newDropoff Direction.airport_to_city maxDetourKm
        = ⟨true, ((0 : ℚ) : WithTop ℚ)⟩) ∧
    (∀ airport, ws ≠ [] →
      ws.find? (fun w => w.type == WType.dropoff) = some airport →
      (∃ i ≤ (ws.filter (fun w => w.type == WType.pickup)).length,
        (calculateOptimalDetour dist ws newPickup newDropoff
            Direction.city_to_airport maxDetourKm).detourKm
          = ((calculateRouteDistance dist
                (cityInsertion (ws.filter (fun w => w.type == WType.pickup)) airport newPickup i)
              - calculateRouteDistance dist ws : ℚ) : WithTop ℚ) ∧
        ∀ j ≤ (ws.filter (fun w => w.type == WType.pickup)).length,
          calculateRouteDistance dist
              (cityInsertion (ws.filter (fun w => w.type == WType.pickup)) airport newPickup i)
            ≤ calculateRouteDistance dist
              (cityInsertion (ws.filter (fun w => w.type == WType.pickup)) airport newPickup j)) ∧
      ((calculateOptimalDetour dist ws newPickup newDropoff
          Direction.city_to_airport maxDetourKm).canAdd = true ↔
        (calculateOptimalDetour dist ws newPickup newDropoff
          Direction.city_to_airport maxDetourKm).detourKm ≤ (maxDetourKm : WithTop ℚ))) ∧
    (∀ airport, ws ≠ [] →
      ws.find? (fun w => w.type == WType.pickup) = some airport →
      (∃ i ≤ (ws.filter (fun w => w.type == WType.dropoff)).length,
        (calculateOptimalDetour dist ws newPickup newDropoff
            Direction.airport_to_city maxDetourKm).detourKm
          = ((calculateRouteDistance dist
                (airportInsertion airport (ws.filter (fun w => w.type == WType.dropoff)) newDropoff i)
              - calculateRouteDistance dist ws : ℚ) : WithTop ℚ) ∧
        ∀ j ≤ (ws.filter (fun w => w.type == WType.dropoff)).length,
          calculateRouteDistance dist
              (airportInsertion airport (ws.filter (fun w => w.type == WType.dropoff)) newDropoff i)
            ≤ calculateRouteDistance dist
              (airportInsertion airport (ws.filter (fun w => w.type == WType.dropoff)) newDropoff j)) ∧
      ((calculateOptimalDetour dist ws newPickup newDropoff
          Direction.airport_to_city maxDetourKm).canAdd = true ↔
        (calculateOptimalDetour dist ws newPickup newDropoff
          Direction.airport_to_city maxDetourKm).detourKm ≤ (maxDetourKm : WithTop ℚ))) ∧
    (ws ≠ [] → ws.find? (fun w => w.type == WType.dropoff) = none →
      (calculateOptimalDetour dist ws newPickup newDropoff
        Direction.city_to_airport maxDetourKm).canAdd = false) ∧
    (ws ≠ [] → ws.find? (fun w => w.type == WType.pickup) = none →
      (calculateOptimalDetour dist ws newPickup newDropoff
        Direction.airport_to_city maxDetourKm).canAdd = false) := by
  refine ⟨fun h => ?_, fun airport hne hf => ?_, fun airport hne hf => ?_,
    fun hne hf => ?_, fun hne hf => ?_⟩
  · subst h
    exact ⟨rfl, rfl⟩
  · have hopt : calculateOptimalDetour dist ws newPickup newDropoff
        Direction.city_to_airport maxDetourKm
        = calculateCityToAirportDetour dist ws newPickup maxDetourKm := rfl
    rw [hopt, city_detour_eq dist ws newPickup maxDetourKm airport hne hf]
    obtain ⟨i, hi, heq, hmin⟩ := jsMinFold_range_spec
      (fun i => calculateRouteDistance dist
        (cityInsertion (ws.filter (fun w => w.type == WType.pickup)) airport newPickup i))
      (ws.filter (fun w => w.type == WType.pickup)).length
    constructor
    · refine ⟨i, hi, ?_, hmin⟩
      show (jsMinFold ⊤ _).map _ = _
      rw [heq]
      rfl
    · exact decide_eq_true_iff
  · have hopt : calculateOptimalDetour dist ws newPickup newDropoff
        Direction.airport_to_city maxDetourKm
        = calculateAirportToCityDetour dist ws newDropoff maxDetourKm := rfl
    rw [hopt, airport_detour_eq dist ws newDropoff maxDetourKm airport hne hf]
    obtain ⟨i, hi, heq, hmin⟩ := jsMinFold_range_spec
      (fun i => calculateRouteDistance dist
        (airportInsertion airport (ws.filter (fun w => w.type == WType.dropoff)) newDropoff i))
      (ws.filter (fun w => w.type == WType.dropoff)).length
    constructor
    · refine ⟨i, hi, ?_, hmin⟩
      show (jsMinFold ⊤ _).map _ = _
      rw [heq]
      rfl
    · exact decide_eq_true_iff
  · show (calculateCityToAirportDetour dist ws newPickup maxDetourKm).canAdd = false
    unfold calculateCityToAirportDetour
    rw [if_neg (mt List.length_eq_zero.mp hne), hf]
  · show (calculateAirportToCityDetour dist ws newDropoff maxDetourKm).canAdd = false
    unfold calculateAirportToCityDetour
    rw [if_neg (mt List.length_eq_zero.mp hne), hf]

/-- Witness for C2: a concrete two-stop to-anchor route with its anchor, a
new pickup at `(0,1)`, and the taxicab instantiation of the abstract
distance. -/
theorem claim2_detour_is_minimum_witness :
    (∃ i ≤ (exRoute.filter (fun w => w.type == WType.pickup)).length,
      (calculateOptimalDetour taxicab exRoute ⟨0, 1⟩ ⟨9, 9⟩
          Direction.city_to_airport 3).detourKm
        = ((calculateRouteDistance taxicab
              (cityInsertion (exRoute.filter (fun w => w.type == WType.pickup))
                ⟨0, 2, WType.dropoff, 2⟩ ⟨0, 1⟩ i)
            - calculateRouteDistance taxicab exRoute : ℚ) : WithTop ℚ) ∧
      ∀ j ≤ (exRoute.filter (fun w => w.type == WType.pickup)).length,
        calculateRouteDistance taxicab
            (cityInsertion (exRoute.filter (fun w => w.type == WType.pickup))
              ⟨0, 2, WType.dropoff, 2⟩ ⟨0, 1⟩ i)
          ≤ calculateRouteDistance taxicab
            (cityInsertion (exRoute.filter (fun w => w.type == WType.pickup))
              ⟨0, 2, WType.dropoff, 2⟩ ⟨0, 1⟩ j)) ∧
    ((calculateOptimalDetour taxicab exRoute ⟨0, 1⟩ ⟨9, 9⟩
        Direction.city_to_airport 3).canAdd = true ↔
      (calculateOptimalDetour taxicab exRoute ⟨0, 1⟩ ⟨9, 9⟩
        Direction.city_to_airport 3).detourKm ≤ ((3 : ℚ) : WithTop ℚ)) :=
  (claim2_detour_is_minimum taxicab exRoute ⟨0, 1⟩ ⟨9, 9⟩ 3).2.1
    ⟨0, 2, WType.dropoff, 2⟩ (by decide) (by decide)

-- ===========================================================================
-- Claim C1
-- ===========================================================================

/-- C1: starting from `filledSeats ≤ maxSeats ∧ filledLuggage ≤ maxLuggage`,
each of `assignRideToPool`, `createPoolForRide` and `cancelPoolForRide`
preserves the capacity invariant; `assignRideToPool` succeeds exactly when
`filledSeats + seats ≤ maxSeats` and `filledLuggage + luggage ≤ maxLuggage`,
and on failure leaves pool and ride unchanged. -/
theorem claim1_capacity_invariant :
    (∀ (pool : Pool) (ride : RideRequest) (price : ℚ) (now : ℕ),
      ((assignRideToPool (some pool) (some ride) price now).outcome = AssignOutcome.success ↔
        pool.filledSeats + ride.seats ≤ pool.maxSeats ∧
        pool.filledLuggage + ride.luggage ≤ pool.maxLuggage) ∧
      (∀ e, (assignRideToPool (some pool) (some ride) price now).outcome
          = AssignOutcome.failure e →
        (assignRideToPool (some pool) (some ride) price now).pool = some pool ∧
        (assignRideToPool (some pool) (some ride) price now).ride = some ride) ∧
      (poolCapacityOk pool →
        ∀ p', (assignRideToPool (some pool) (some ride) price now).pool = some p' →
          poolCapacityOk p')) ∧
    (∀ (nearestDriverId : Option ℕ) (driverRow : Option Driver)
        (vehicleRow : Option Vehicle) (ride : RideRequest) (rideData : RideData)
        (newPoolId now : ℕ) (p' : Pool),
      (createPoolForRide nearestDriverId driverRow vehicleRow ride rideData
          newPoolId now).pool = some p' →
      poolCapacityOk p') ∧
    (∀ (rideRow : Option RideRequest) (poolLookup : ℕ → Option Pool) (now : ℕ),
      (∀ pid p, poolLookup pid = some p → poolCapacityOk p) →
      (∀ r, rideRow = some r → 0 ≤ r.seats ∧ 0 ≤ r.luggage) →
      ∀ p', (cancelPoolForRide rideRow poolLookup now).pool = some p' →
        poolCapacityOk p') := by
  refine ⟨fun pool ride price now => ?_, fun nid drv veh ride rd npid now p' h => ?_,
    fun rideRow poolLookup now hpools hrides p' h => ?_⟩
  · by_cases hs : pool.filledSeats + ride.seats > pool.maxSeats
    · refine ⟨?_, ?_, ?_⟩
      · simp only [assignRideToPool, if_pos hs]
        exact ⟨fun h => absurd h (by simp), fun h => absurd hs (not_lt.mpr h.1)⟩
      · intro e _
        simp [assignRideToPool, if_pos hs]
      · intro hinv p' hp'
        simp only [assignRideToPool, if_pos hs, Option.some.injEq] at hp'
        exact hp' ▸ hinv
    · by_cases hl : pool.filledLuggage + ride.luggage > pool.maxLuggage
      · refine ⟨?_, ?_, ?_⟩
        · simp only [assignRideToPool, if_neg hs, if_pos hl]
          exact ⟨fun h => absurd h (by simp), fun h => absurd hl (not_lt.mpr h.2)⟩
        · intro e _
          simp [assignRideToPool, if_neg hs, if_pos hl]
        · intro hinv p' hp'
          simp only [assignRideToPool, if_neg hs, if_pos hl, Option.some.injEq] at hp'
          exact hp' ▸ hinv
      · refine ⟨?_, ?_, ?_⟩
        · simp only [assignRideToPool, if_neg hs, if_neg hl]
          exact ⟨fun _ => ⟨not_lt.mp hs, not_lt.mp hl⟩, fun _ => by trivial⟩
        · intro e he
          simp only [assignRideToPool, if_neg hs, if_neg hl] at he
          cases he
        · intro _ p' hp'
          simp only [assignRideToPool, if_neg hs, if_neg hl, Option.some.injEq] at hp'
          subst hp'
          exact ⟨not_lt.mp hs, not_lt.mp hl⟩
  · cases nid with
    | none => simp [createPoolForRide] at h
    | some nd =>
      cases drv with
      | none => simp [createPoolForRide] at h
      | some driver =>
        by_cases hst : driver.status ≠ DriverStatus.available
        · simp [createPoolForRide, if_pos hst] at h
        · by_cases hcap : rd.seats > jsOrDefault (veh.map Vehicle.maxSeats) 4 ∨
              rd.luggage > jsOrDefault (veh.map Vehicle.maxLuggage) 4
          · simp [createPoolForRide, if_neg hst, if_pos hcap] at h
          · simp only [createPoolForRide, if_neg hst, if_pos hcap, if_neg hcap,
              Option.some.injEq] at h
            push_neg at hcap
            subst h
            exact ⟨hcap.1, hcap.2⟩
  · cases rideRow with
    | none => simp [cancelPoolForRide] at h
    | some ride =>
      by_cases hterm : ride.status = RideStatus.completed ∨ ride.status = RideStatus.cancelled
      · simp [cancelPoolForRide, if_pos hterm] at h
      · simp only [cancelPoolForRide, if_neg hterm] at h
        split at h
        · simp at h
        · split at h
          · simp at h
          · rename_i pool hlk
            have hpOk := hpools _ pool hlk
            have hr := hrides ride rfl
            by_cases hm : ride.status = RideStatus.matched
            · simp only [if_pos hm, Option.some.injEq] at h
              subst h
              exact ⟨le_trans (sub_le_self _ hr.1) hpOk.1,
                le_trans (sub_le_self _ hr.2) hpOk.2⟩
            · simp only [if_neg hm, Option.some.injEq] at h
              exact h ▸ hpOk

/-- Witness for C1: concrete pool/ride rows exercising the hypotheses of the
cancellation branch (everything released stays within capacity). -/
theorem claim1_capacity_invariant_witness :
    ∀ p', (cancelPoolForRide (some { exMatchedRide with poolId := some 7 })
        (fun _ => some exArrivedPool) 3).pool = some p' → poolCapacityOk p' :=
  claim1_capacity_invariant.2.2 (some { exMatchedRide with poolId := some 7 })
    (fun _ => some exArrivedPool) 3
    (fun pid p hp => by
      injection hp with hp
      subst hp
      exact ⟨by decide, by decide⟩)
    (fun r hr => by
      injection hr with hr
      subst hr
      exact ⟨by decide, by decide⟩)

-- ===========================================================================
-- Claim C9
-- ===========================================================================

lemma foldl_add_map (f : PoolWaypoint → ℚ) :
    ∀ (ws : List PoolWaypoint) (s : ℚ),
      ws.foldl (fun a w => a + f w) s = s + (ws.map f).sum
  | [], s => by simp
  | w :: t, s => by
    simp only [List.foldl_cons, List.map_cons, List.sum_cons,
      foldl_add_map f t (s + f w)]
    ring

lemma calculatePoolCenter_mean (ws : List PoolWaypoint) (hne : ws ≠ []) :
    (calculatePoolCenter ws).lat = (ws.map PoolWaypoint.lat).sum / ws.length ∧
    (calculatePoolCenter ws).lng = (ws.map PoolWaypoint.lng).sum / ws.length := by
  unfold calculatePoolCenter
  rw [if_neg (mt List.length_eq_zero.mp hne)]
  constructor <;> simp [foldl_add_map]

/-- C9: after every successful `assignRideToPool` and after every
cancellation-with-release, the pool's `centerLat`/`centerLng` equal the
arithmetic means of the latitudes and longitudes of all of the pool's stored
waypoints (cancellation changes neither the waypoints nor the centre, so it
preserves the property). -/
theorem claim9_centroid_mean :
    (∀ (pool : Pool) (ride : RideRequest) (price : ℚ) (now : ℕ) (p' : Pool),
      (assignRideToPool (some pool) (some ride) price now).outcome = AssignOutcome.success →
      (assignRideToPool (some pool) (some ride) price now).pool = some p' →
      p'.centerLat = (p'.waypoints.map PoolWaypoint.lat).sum / p'.waypoints.length ∧
      p'.centerLng = (p'.waypoints.map PoolWaypoint.lng).sum / p'.waypoints.length) ∧
    (∀ (rideRow : Option RideRequest) (poolLookup : ℕ → Option Pool) (now : ℕ),
      (∀ pid p, poolLookup pid = some p →
        p.centerLat = (p.waypoints.map PoolWaypoint.lat).sum / p.waypoints.length ∧
        p.centerLng = (p.waypoints.map PoolWaypoint.lng).sum / p.waypoints.length) →
      ∀ p', (cancelPoolForRide rideRow poolLookup now).pool = some p' →
        p'.centerLat = (p'.waypoints.map PoolWaypoint.lat).sum / p'.waypoints.length ∧
        p'.centerLng = (p'.waypoints.map PoolWaypoint.lng).sum / p'.waypoints.length) := by
  constructor
  · intro pool ride price now p' hsuc hp'
    by_cases hs : pool.filledSeats + ride.seats > pool.maxSeats
    · simp [assignRideToPool, if_pos hs] at hsuc
    · by_cases hl : pool.filledLuggage + ride.luggage > pool.maxLuggage
      · simp [assignRideToPool, if_neg hs, if_pos hl] at hsuc
      · simp only [assignRideToPool, if_neg hs, if_neg hl, Option.some.injEq] at hp'
        subst hp'
        exact calculatePoolCenter_mean (assignNewWaypoints pool ride)
          (by simp [assignNewWaypoints])
  · intro rideRow poolLookup now hpools p' h
    cases rideRow with
    | none => simp [cancelPoolForRide] at h
    | some ride =>
      by_cases hterm : ride.status = RideStatus.completed ∨ ride.status = RideStatus.cancelled
      · simp [cancelPoolForRide, if_pos hterm] at h
      · simp only [cancelPoolForRide, if_neg hterm] at h
        split at h
        · simp at h
        · split at h
          · simp at h
          · rename_i pool hlk
            have hpOk := hpools _ pool hlk
            by_cases hm : ride.status = RideStatus.matched
            · simp only [if_pos hm, Option.some.injEq] at h
              subst h
              exact hpOk
            · simp only [if_neg hm, Option.some.injEq] at h
              exact h ▸ hpOk

/-- Witness for C9: the concrete pool produced by assigning `exRide` into
`exPool` has its centre at the mean of its two waypoints. -/
theorem claim9_centroid_mean_witness :
    exAssignedPool.centerLat
      = (exAssignedPool.waypoints.map PoolWaypoint.lat).sum / exAssignedPool.waypoints.length ∧
    exAssignedPool.centerLng
      = (exAssignedPool.waypoints.map PoolWaypoint.lng).sum / exAssignedPool.waypoints.length :=
  claim9_centroid_mean.1 exPool exRide 12 1 exAssignedPool (by decide)
    (by
      norm_num [assignRideToPool, assignNewWaypoints, calculatePoolCenter,
        exPool, exRide, exAssignedPool])

-- ===========================================================================
-- Claim C4
-- ===========================================================================

/-- C4 counterexample: `exMatchedRide` is already `matched` into pool 99, yet
re-invoking `assignRideToPool` against the different pool `exPool` (id 1)
succeeds and rewrites the ride's `poolId` to pool 1 — the handler performs no
ride-status re-read and is not a no-op, and `poolId` changes to a different
pool without any cancellation. -/
theorem claim4_counterexample :
    exMatchedRide.status = RideStatus.matched ∧
    exMatchedRide.poolId = some 99 ∧
    exPool.id = 1 ∧
    (assignRideToPool (some exPool) (some exMatchedRide) 12 7).outcome
      = AssignOutcome.success ∧
    ((assignRideToPool (some exPool) (some exMatchedRide) 12 7).ride.map
      RideRequest.poolId) = some (some 1) := by
  refine ⟨rfl, rfl, rfl, ?_, ?_⟩ <;> decide

/-- C4 amended: `assignRideToPool` checks only pool capacity, never the
ride's current status or `poolId`; whenever the target pool has room it
succeeds and overwrites `poolId` with the target pool and the status with
`matched`, whatever state the ride was in. -/
theorem claim4_no_status_guard (pool : Pool) (ride : RideRequest) (price : ℚ)
    (now : ℕ)
    (hs : pool.filledSeats + ride.seats ≤ pool.maxSeats)
    (hl : pool.filledLuggage + ride.luggage ≤ pool.maxLuggage) :
    (assignRideToPool (some pool) (some ride) price now).outcome
      = AssignOutcome.success ∧
    ((assignRideToPool (some pool) (some ride) price now).ride.map
      RideRequest.poolId) = some (some pool.id) ∧
    ((assignRideToPool (some pool) (some ride) price now).ride.map
      RideRequest.status) = some RideStatus.matched := by
  simp [assignRideToPool, if_neg (not_lt.mpr hs), if_neg (not_lt.mpr hl)]

/-- Witness for C4 amended: concrete capacity-fitting pool and an
already-matched ride. -/
theorem claim4_no_status_guard_witness :
    (assignRideToPool (some exPool) (some exMatchedRide) 12 7).outcome
      = AssignOutcome.success ∧
    ((assignRideToPool (some exPool) (some exMatchedRide) 12 7).ride.map
      RideRequest.poolId) = some (some exPool.id) ∧
    ((assignRideToPool (some exPool) (some exMatchedRide) 12 7).ride.map
      RideRequest.status) = some RideStatus.matched :=
  claim4_no_status_guard exPool exMatchedRide 12 7 (by decide) (by decide)

-- ===========================================================================
-- Claim C5
-- ===========================================================================

/-- C5 counterexample: `exAnchoredPool` is a well-ordered to-anchor pool
(one pickup, then the single anchor dropoff).  A successful
`assignRideToPool` appends the new ride's pickup and dropoff after the
anchor, so the updated sequence has a pickup following the anchor dropoff
(and two dropoffs): the direction-ordering invariant is not preserved. -/
theorem claim5_counterexample :
    exAnchoredPool.direction = Direction.city_to_airport ∧
    toAnchorOrdered exAnchoredPool.waypoints ∧
    (assignRideToPool (some exAnchoredPool) (some exRide) 10 3).outcome
      = AssignOutcome.success ∧
    ((assignRideToPool (some exAnchoredPool) (some exRide) 10 3).pool.map
        Pool.waypoints)
      = some [⟨1, 1, WType.pickup, 3, 1⟩, ⟨5, 5, WType.dropoff, 3, 2⟩,
          ⟨3, 4, WType.pickup, 9, 3⟩, ⟨0, 2, WType.dropoff, 9, 4⟩] ∧
    ¬ toAnchorOrdered
        [⟨1, 1, WType.pickup, 3, 1⟩, ⟨5, 5, WType.dropoff, 3, 2⟩,
          ⟨3, 4, WType.pickup, 9, 3⟩, ⟨0, 2, WType.dropoff, 9, 4⟩] := by
  refine ⟨rfl, by decide, by decide, ?_, by decide⟩
  norm_num [assignRideToPool, exAnchoredPool, exPool, exRide, assignNewWaypoints]

/-- C5 amended: a successful `assignRideToPool` always appends the ride's
pickup and then its dropoff at the very end of the stored waypoint sequence
(sequence numbers `len+1`, `len+2`), regardless of the pool's direction and
of where the anchor sits; no insertion position from the detour solver is
consulted. -/
theorem claim5_append_at_end (pool : Pool) (ride : RideRequest) (price : ℚ)
    (now : ℕ) (p' : Pool)
    (hp : (assignRideToPool (some pool) (some ride) price now).pool = some p')
    (hsuc : (assignRideToPool (some pool) (some ride) price now).outcome
      = AssignOutcome.success) :
    p'.waypoints = pool.waypoints ++
      [⟨ride.pickupLat, ride.pickupLng, WType.pickup, ride.id,
          (pool.waypoints.length : ℤ) + 1⟩,
        ⟨ride.dropoffLat, ride.dropoffLng, WType.dropoff, ride.id,
          (pool.waypoints.length : ℤ) + 2⟩] := by
  by_cases hs : pool.filledSeats + ride.seats > pool.maxSeats
  · simp [assignRideToPool, if_pos hs] at hsuc
  · by_cases hl : pool.filledLuggage + ride.luggage > pool.maxLuggage
    · simp [assignRideToPool, if_neg hs, if_pos hl] at hsuc
    · simp only [assignRideToPool, if_neg hs, if_neg hl, Option.some.injEq] at hp
      subst hp
      rfl

/-- Witness for C5 amended: assigning `exRide` into `exAnchoredPool` yields
exactly the old sequence with the two new waypoints appended. -/
theorem claim5_append_at_end_witness :
    exAppendedPool.waypoints = exAnchoredPool.waypoints ++
      [⟨exRide.pickupLat, exRide.pickupLng, WType.pickup, exRide.id,
          (exAnchoredPool.waypoints.length : ℤ) + 1⟩,
        ⟨exRide.dropoffLat, exRide.dropoffLng, WType.dropoff, exRide.id,
          (exAnchoredPool.waypoints.length : ℤ) + 2⟩] :=
  claim5_append_at_end exAnchoredPool exRide 10 3 exAppendedPool
    (by norm_num [assignRideToPool, exAnchoredPool, exPool, exRide,
      assignNewWaypoints, calculatePoolCenter, exAppendedPool])
    (by decide)

-- ===========================================================================
-- Claim C6
-- ===========================================================================

/-- C6 counterexample: when the assignment attempt on the winning candidate
fails, the dispatch handler performs exactly one candidate search — it never
re-runs the search — and falls directly through to pool creation. -/
theorem claim6_counterexample :
    (processRideMatching (some exPool) 1 false).1.count MatchStep.searchPools = 1 ∧
    MatchStep.createPool ∈ (processRideMatching (some exPool) 1 false).1 ∧
    (processRideMatching (some exPool) 1 false).2 = MatchOutcome.pooled := by
  decide

/-- C6 amended: on any assignment failure the handler immediately invokes
pool creation, with no second candidate search: the performed steps are
exactly search, assignment attempt, pool creation. -/
theorem claim6_direct_fallback (pool : Pool) (seats : ℤ) :
    processRideMatching (some pool) seats false
      = ([MatchStep.searchPools, MatchStep.assignAttempt pool.id,
          MatchStep.createPool], MatchOutcome.pooled) ∧
    (processRideMatching (some pool) seats false).1.count MatchStep.searchPools = 1 := by
  refine ⟨rfl, ?_⟩
  simp [processRideMatching, List.count_cons, List.count_nil]

-- ===========================================================================
-- Claim C7
-- ===========================================================================

/-- C7: `cancelPoolForRide` rejects rides already `completed` or `cancelled`,
leaving the ride unchanged; otherwise it cancels the ride with a timestamp
and reason, returns fee 0 when no pool is bound, fee 5 exactly when the bound
pool has reached `driver_arrived` (status or arrival timestamp) and 0
otherwise, and for a `matched` ride releases exactly the ride's seats and
luggage back to the pool. -/
theorem claim7_cancel_rules :
    ∀ (ride : RideRequest) (poolLookup : ℕ → Option Pool) (now : ℕ),
    (ride.status = RideStatus.completed ∨ ride.status = RideStatus.cancelled →
      (cancelPoolForRide (some ride) poolLookup now).success = false ∧
      (cancelPoolForRide (some ride) poolLookup now).error
        = some ("Ride already completed or cancelled") ∧
      (cancelPoolForRide (some ride) poolLookup now).ride = some ride) ∧
    (¬(ride.status = RideStatus.completed ∨ ride.status = RideStatus.cancelled) →
      (cancelPoolForRide (some ride) poolLookup now).success = true ∧
      (cancelPoolForRide (some ride) poolLookup now).ride
        = some { ride with
            status := RideStatus.cancelled
            cancelledAt := some now
            cancellationReason := some ("User cancelled") } ∧
      (∀ pid pool, ride.poolId = some pid → poolLookup pid = some pool →
        (cancelPoolForRide (some ride) poolLookup now).fee
          = some (if pool.status = PoolStatus.driver_arrived ∨ pool.driverArrivedAt ≠ none
              then (5 : ℚ) else 0)) ∧
      (ride.poolId = none →
        (cancelPoolForRide (some ride) poolLookup now).fee = some 0) ∧
      (∀ pid pool, ride.poolId = some pid → poolLookup pid = some pool →
        ride.status = RideStatus.matched →
        (cancelPoolForRide (some ride) poolLookup now).pool
          = some { pool with
              filledSeats := pool.filledSeats - ride.seats
              filledLuggage := pool.filledLuggage - ride.luggage })) := by
  intro ride poolLookup now
  constructor
  · intro hterm
    refine ⟨?_, ?_, ?_⟩ <;> simp [cancelPoolForRide, if_pos hterm]
  · intro hterm
    refine ⟨?_, ?_, fun pid pool hpid hlk => ?_, fun hpid => ?_,
      fun pid pool hpid hlk hm => ?_⟩
    · simp [cancelPoolForRide, if_neg hterm]
    · simp [cancelPoolForRide, if_neg hterm]
    · simp [cancelPoolForRide, if_neg hterm, hpid, hlk]
    · simp [cancelPoolForRide, if_neg hterm, hpid]
    · simp [cancelPoolForRide, if_neg hterm, hpid, hlk, if_pos hm]

/-- Witness for C7: a matched ride bound to pool 7 whose driver has arrived:
cancellation succeeds, charges the $5 fee and releases the seats/luggage. -/
theorem claim7_cancel_rules_witness :
    (cancelPoolForRide (some exBoundRide) (fun _ => some exArrivedPool) 3).success
      = true ∧
    (cancelPoolForRide (some exBoundRide) (fun _ => some exArrivedPool) 3).fee
      = some (if exArrivedPool.status = PoolStatus.driver_arrived ∨
            exArrivedPool.driverArrivedAt ≠ none then (5 : ℚ) else 0) ∧
    (cancelPoolForRide (some exBoundRide) (fun _ => some exArrivedPool) 3).pool
      = some { exArrivedPool with
          filledSeats := exArrivedPool.filledSeats - exBoundRide.seats
          filledLuggage := exArrivedPool.filledLuggage - exBoundRide.luggage } := by
  have h := (claim7_cancel_rules exBoundRide (fun _ => some exArrivedPool) 3).2 (by decide)
  exact ⟨h.1, h.2.2.1 7 exArrivedPool rfl rfl, h.2.2.2.2 7 exArrivedPool rfl rfl (by decide)⟩

-- ===========================================================================
-- Claim C8
-- ===========================================================================

/-- C8: `createPoolForRide` returns the distinct, non-retriable
capacity-exceeded error — creating no pool and leaving the ride row exactly
as it was — when the initiating ride alone exceeds the located driver's
vehicle capacity, and returns the no-driver error with the ride likewise
untouched when no available driver is found. -/
theorem claim8_create_pool_errors :
    ∀ (driver : Driver) (vehicleRow : Option Vehicle) (ride : RideRequest)
      (rideData : RideData) (newPoolId now : ℕ),
    (createPoolForRide none none vehicleRow ride rideData newPoolId now
      = ⟨none, none, some ("No available drivers nearby"), ride⟩) ∧
    (driver.status = DriverStatus.available →
      rideData.seats > jsOrDefault (vehicleRow.map Vehicle.maxSeats) 4 ∨
        rideData.luggage > jsOrDefault (vehicleRow.map Vehicle.maxLuggage) 4 →
      createPoolForRide (some driver.id) (some driver) vehicleRow ride rideData
          newPoolId now
        = ⟨none, none, some ("Ride exceeds vehicle capacity"), ride⟩) ∧
    (("No available drivers nearby" : String) ≠ "Ride exceeds vehicle capacity" ∧
      ("Ride exceeds vehicle capacity" : String) ≠ "Driver no longer available") := by
  intro driver vehicleRow ride rideData newPoolId now
  refine ⟨rfl, fun hav hcap => ?_, by decide⟩
  have hne : ¬(driver.status ≠ DriverStatus.available) := fun hne => hne hav
  simp only [createPoolForRide, if_neg hne, if_pos hcap]

/-- Witness for C8: an available driver with a two-seat vehicle and a ride
demanding three seats hits the capacity-exceeded branch. -/
theorem claim8_create_pool_errors_witness :
    createPoolForRide (some exDriver.id) (some exDriver) (some exVehicle)
        exRide exRideData 5 1
      = ⟨none, none, some ("Ride exceeds vehicle capacity"), exRide⟩ :=
  (claim8_create_pool_errors exDriver (some exVehicle) exRide exRideData 5 1).2.1
    (by decide) (by decide)

-- ===========================================================================
-- Helper lemmas: the findBestPool scoring loop
-- ===========================================================================

lemma findBestPoolLoop_some_ne_none (dist : Dist) (pLat pLng dLat dLng : ℚ)
    (direction : Direction) :
    ∀ (l : List Pool) (m : WithTop ℚ) (b : Pool),
      findBestPoolLoop dist pLat pLng dLat dLng direction l m (some b) ≠ none
  | [], _, _ => by simp [findBestPoolLoop]
  | p :: rest, m, b => by
    simp only [findBestPoolLoop]
    by_cases hlt : calculateDetour dist p pLat pLng dLat dLng direction < m
    · rw [if_pos hlt]
      exact findBestPoolLoop_some_ne_none dist pLat pLng dLat dLng direction rest _ p
    · rw [if_neg hlt]
      exact findBestPoolLoop_some_ne_none dist pLat pLng dLat dLng direction rest m b

lemma findBestPoolLoop_some_spec (dist : Dist) (pLat pLng dLat dLng : ℚ)
    (direction : Direction) :
    ∀ (l : List Pool) (m : WithTop ℚ) (best : Option Pool) (q : Pool),
      (∀ b, best = some b →
        calculateDetour dist b pLat pLng dLat dLng direction ≤ m) →
      findBestPoolLoop dist pLat pLng dLat dLng direction l m best = some q →
      ((best = some q ∨ q ∈ l) ∧
        calculateDetour dist q pLat pLng dLat dLng direction ≤ m ∧
        ∀ p ∈ l, calculateDetour dist q pLat pLng dLat dLng direction
          ≤ calculateDetour dist p pLat pLng dLat dLng direction)
  | [], m, best, q, hb, heq => by
    simp only [findBestPoolLoop] at heq
    exact ⟨Or.inl heq, hb q heq, by simp⟩
  | p :: rest, m, best, q, hb, heq => by
    simp only [findBestPoolLoop] at heq
    by_cases hlt : calculateDetour dist p pLat pLng dLat dLng direction < m
    · rw [if_pos hlt] at heq
      obtain ⟨hmem, hle, hall⟩ :=
        findBestPoolLoop_some_spec dist pLat pLng dLat dLng direction rest _ (some p) q
          (fun b hbb => by injection hbb with hbb; subst hbb; exact le_refl _) heq
      refine ⟨?_, le_trans hle (le_of_lt hlt), ?_⟩
      · rcases hmem with hpq | hin
        · injection hpq with hpq
          exact Or.inr (hpq ▸ List.mem_cons_self p rest)
        · exact Or.inr (List.mem_cons_of_mem p hin)
      · intro r hr
        rcases List.mem_cons.mp hr with h1 | h2
        · subst h1; exact hle
        · exact hall r h2
    · rw [if_neg hlt] at heq
      obtain ⟨hmem, hle, hall⟩ :=
        findBestPoolLoop_some_spec dist pLat pLng dLat dLng direction rest m best q hb heq
      refine ⟨?_, hle, ?_⟩
      · rcases hmem with h1 | h2
        · exact Or.inl h1
        · exact Or.inr (List.mem_cons_of_mem p h2)
      · intro r hr
        rcases List.mem_cons.mp hr with h1 | h2
        · subst h1; exact le_trans hle (le_of_not_lt hlt)
        · exact hall r h2

lemma findBestPoolLoop_none_spec (dist : Dist) (pLat pLng dLat dLng : ℚ)
    (direction : Direction) :
    ∀ (l : List Pool) (m : WithTop ℚ) (best : Option Pool),
      findBestPoolLoop dist pLat pLng dLat dLng direction l m best = none →
      best = none ∧
        ∀ p ∈ l, ¬(calculateDetour dist p pLat pLng dLat dLng direction < m)
  | [], _, best, heq => ⟨heq, by simp⟩
  | p :: rest, m, best, heq => by
    simp only [findBestPoolLoop] at heq
    by_cases hlt : calculateDetour dist p pLat pLng dLat dLng direction < m
    · rw [if_pos hlt] at heq
      exact absurd heq
        (findBestPoolLoop_some_ne_none dist pLat pLng dLat dLng direction rest _ p)
    · rw [if_neg hlt] at heq
      obtain ⟨hb, hall⟩ :=
        findBestPoolLoop_none_spec dist pLat pLng dLat dLng direction rest m best heq
      refine ⟨hb, fun r hr => ?_⟩
      rcases List.mem_cons.mp hr with h1 | h2
      · subst h1; exact hlt
      · exact hall r h2

/-- Tie-break shape of the strict-`<` update: a candidate returned from the
list occupies a position every earlier candidate of which scores strictly
worse (and its score strictly beat the initial running minimum). -/
lemma findBestPoolLoop_first_spec (dist : Dist) (pLat pLng dLat dLng : ℚ)
    (direction : Direction) :
    ∀ (l : List Pool) (m : WithTop ℚ) (best : Option Pool) (q : Pool),
      findBestPoolLoop dist pLat pLng dLat dLng direction l m best = some q →
      best = some q ∨
        ∃ pre post, l = pre ++ q :: post ∧
          calculateDetour dist q pLat pLng dLat dLng direction < m ∧
          ∀ p ∈ pre, calculateDetour dist q pLat pLng dLat dLng direction
            < calculateDetour dist p pLat pLng dLat dLng direction
  | [], m, best, q, heq => by
    simp only [findBestPoolLoop] at heq
    exact Or.inl heq
  | p :: rest, m, best, q, heq => by
    simp only [findBestPoolLoop] at heq
    by_cases hlt : calculateDetour dist p pLat pLng dLat dLng direction < m
    · rw [if_pos hlt] at heq
      rcases findBestPoolLoop_first_spec dist pLat pLng dLat dLng direction rest _
          (some p) q heq with hpq | ⟨pre, post, hsplit, hqlt, hall⟩
      · injection hpq with hpq
        subst hpq
        exact Or.inr ⟨[], rest, rfl, hlt, by simp⟩
      · refine Or.inr ⟨p :: pre, post, by rw [hsplit, List.cons_append],
          lt_trans hqlt hlt, fun r hr => ?_⟩
        rcases List.mem_cons.mp hr with h1 | h2
        · subst h1; exact hqlt
        · exact hall r h2
    · rw [if_neg hlt] at heq
      rcases findBestPoolLoop_first_spec dist pLat pLng dLat dLng direction rest m
          best q heq with hbq | ⟨pre, post, hsplit, hqlt, hall⟩
      · exact Or.inl hbq
      · refine Or.inr ⟨p :: pre, post, by rw [hsplit, List.cons_append],
          hqlt, fun r hr => ?_⟩
        rcases List.mem_cons.mp hr with h1 | h2
        · subst h1; exact lt_of_lt_of_le hqlt (le_of_not_lt hlt)
        · exact hall r h2

/-- The returned candidate is the earliest one attaining the minimum: every
candidate placed before it in the search order scores strictly worse. -/
lemma findBestPool_first_spec (dist : Dist) (availablePools : List Pool)
    (pickupLat pickupLng dropoffLat dropoffLng : ℚ) (seats luggage : ℤ)
    (direction : Direction) (q : Pool)
    (hq : findBestPool dist availablePools pickupLat pickupLng dropoffLat dropoffLng
      seats luggage direction = some q) :
    ∃ pre post, availablePools = pre ++ q :: post ∧
      ∀ p ∈ pre,
        calculateDetour dist q pickupLat pickupLng dropoffLat dropoffLng direction
          < calculateDetour dist p pickupLat pickupLng dropoffLat dropoffLng direction := by
  unfold findBestPool at hq
  by_cases hemp : availablePools.length = 0
  · rw [if_pos hemp] at hq
    cases hq
  · rw [if_neg hemp] at hq
    rcases findBestPoolLoop_first_spec dist pickupLat pickupLng dropoffLat dropoffLng
        direction availablePools ⊤ none q hq with h1 | ⟨pre, post, hsplit, -, hall⟩
    · cases h1
    · exact ⟨pre, post, hsplit, hall⟩

/-- A returned candidate is a member of the list and scores no worse than
every candidate. -/
lemma findBestPool_some_spec (dist : Dist) (availablePools : List Pool)
    (pickupLat pickupLng dropoffLat dropoffLng : ℚ) (seats luggage : ℤ)
    (direction : Direction) (q : Pool)
    (hq : findBestPool dist availablePools pickupLat pickupLng dropoffLat dropoffLng
      seats luggage direction = some q) :
    q ∈ availablePools ∧
    ∀ p ∈ availablePools,
      calculateDetour dist q pickupLat pickupLng dropoffLat dropoffLng direction
        ≤ calculateDetour dist p pickupLat pickupLng dropoffLat dropoffLng direction := by
  unfold findBestPool at hq
  by_cases hemp : availablePools.length = 0
  · rw [if_pos hemp] at hq
    cases hq
  · rw [if_neg hemp] at hq
    obtain ⟨hmem, _, hall⟩ :=
      findBestPoolLoop_some_spec dist pickupLat pickupLng dropoffLat dropoffLng
        direction availablePools ⊤ none q (fun b hb => by cases hb) hq
    rcases hmem with h1 | h2
    · cases h1
    · exact ⟨h2, hall⟩

/-- When the loop returns nothing, every candidate's score is infinite. -/
lemma findBestPool_none_spec (dist : Dist) (availablePools : List Pool)
    (pickupLat pickupLng dropoffLat dropoffLng : ℚ) (seats luggage : ℤ)
    (direction : Direction)
    (hn : findBestPool dist availablePools pickupLat pickupLng dropoffLat dropoffLng
      seats luggage direction = none) :
    ∀ p ∈ availablePools,
      calculateDetour dist p pickupLat pickupLng dropoffLat dropoffLng direction = ⊤ := by
  intro p hp
  unfold findBestPool at hn
  by_cases hemp : availablePools.length = 0
  · rw [List.length_eq_zero] at hemp
    subst hemp
    cases hp
  · rw [if_neg hemp] at hn
    obtain ⟨-, hall⟩ :=
      findBestPoolLoop_none_spec dist pickupLat pickupLng dropoffLat dropoffLng
        direction availablePools ⊤ none hn
    by_contra hne
    exact hall p hp (lt_top_iff_ne_top.mpr hne)

-- ===========================================================================
-- Helper lemmas: concrete scoring of exDetourPool
-- ===========================================================================

/-- The single candidate `exDetourPool` scores a 10 km detour for a new
pickup at `(0,10)` under the taxicab instantiation. -/
lemma exDetourPool_score :
    calculateDetour taxicab exDetourPool 0 10 0 2 Direction.city_to_airport
      = ((10 : ℚ) : WithTop ℚ) := by
  have hE : exDetourPool.waypoints.mapIdx
      (fun index w => (⟨w.lat, w.lng, w.type, (index : ℤ) + 1⟩ : Waypoint)) = exRoute := by
    decide
  unfold calculateDetour
  rw [if_neg (by decide), hE]
  show (calculateOptimalDetour taxicab exRoute ⟨0, 10⟩ ⟨0, 2⟩
    Direction.city_to_airport 3).detourKm = ((10 : ℚ) : WithTop ℚ)
  have hopt : calculateOptimalDetour taxicab exRoute ⟨0, 10⟩ ⟨0, 2⟩
      Direction.city_to_airport 3
      = calculateCityToAirportDetour taxicab exRoute ⟨0, 10⟩ 3 := rfl
  rw [hopt, city_detour_eq taxicab exRoute ⟨0, 10⟩ 3 ⟨0, 2, WType.dropoff, 2⟩
    (by decide) (by decide)]
  have hl : (List.range ((exRoute.filter (fun w => w.type == WType.pickup)).length + 1)).map
      (fun i => calculateRouteDistance taxicab
        (cityInsertion (exRoute.filter (fun w => w.type == WType.pickup))
          ⟨0, 2, WType.dropoff, 2⟩ ⟨0, 10⟩ i)) = [12, 18] := by
    norm_num [List.range_succ, exRoute, cityInsertion, calculateRouteDistance, taxicab]
    all_goals decide
  show (jsMinFold ⊤ _).map _ = _
  rw [hl]
  have hjm : jsMinFold ⊤ [(12 : ℚ), 18] = ((12 : ℚ) : WithTop ℚ) := by
    simp only [jsMinFold, List.foldl_cons, List.foldl_nil]
    rw [if_pos (WithTop.coe_lt_top (12 : ℚ)),
      if_neg (by rw [WithTop.coe_lt_coe]; norm_num)]
  have hsub : (12 : ℚ) - calculateRouteDistance taxicab exRoute = 10 := by
    norm_num [exRoute, calculateRouteDistance, taxicab]
  rw [hjm, WithTop.map_coe, hsub]

/-- Under the taxicab instantiation, `findBestPool` selects `exDetourPool`
from the singleton candidate list despite its 10 km score. -/
lemma exDetourPool_best :
    findBestPool taxicab [exDetourPool] 0 10 0 2 1 1 Direction.city_to_airport
      = some exDetourPool := by
  unfold findBestPool
  rw [if_neg (by decide)]
  simp only [findBestPoolLoop]
  rw [exDetourPool_score, if_pos (WithTop.coe_lt_top (10 : ℚ))]

-- ===========================================================================
-- Claim C3
-- ===========================================================================

/-- C3 counterexample: the single candidate `exDetourPool` scores a 10 km
extra detour — far above the requesting ride's 3 km max-detour (the default,
also the solver's hard-coded tolerance) — yet `findBestPool` still selects
it: the admission rule is never applied to the scoring loop, which only
minimises `detourKm` and ignores `canAdd`. -/
theorem claim3_counterexample :
    exRide.maxDetourKm = 3 ∧
    findBestPool taxicab [exDetourPool] 0 10 0 2 1 1 Direction.city_to_airport
      = some exDetourPool ∧
    ¬(calculateDetour taxicab exDetourPool 0 10 0 2 Direction.city_to_airport
        ≤ ((3 : ℚ) : WithTop ℚ)) := by
  refine ⟨rfl, exDetourPool_best, ?_⟩
  rw [exDetourPool_score, WithTop.coe_le_coe]
  norm_num

/-- C3 amended: for every candidate pool list, `findBestPool` selects a
member whose detour score is minimal over all candidates — with no
admission-rule filter, so the requesting ride's max-detour is never
consulted — keeping the earliest candidate on ties (strict improvement
required); it selects no candidate only when the list is empty or every
candidate's score is infinite. -/
theorem claim3_min_detour_selection (dist : Dist) (availablePools : List Pool)
    (pickupLat pickupLng dropoffLat dropoffLng : ℚ) (seats luggage : ℤ)
    (direction : Direction) :
    (∀ q, findBestPool dist availablePools pickupLat pickupLng dropoffLat dropoffLng
        seats luggage direction = some q →
      q ∈ availablePools ∧
      (∀ p ∈ availablePools,
        calculateDetour dist q pickupLat pickupLng dropoffLat dropoffLng direction
          ≤ calculateDetour dist p pickupLat pickupLng dropoffLat dropoffLng direction) ∧
      ∃ pre post, availablePools = pre ++ q :: post ∧
        ∀ p ∈ pre,
          calculateDetour dist q pickupLat pickupLng dropoffLat dropoffLng direction
            < calculateDetour dist p pickupLat pickupLng dropoffLat dropoffLng direction) ∧
    (findBestPool dist availablePools pickupLat pickupLng dropoffLat dropoffLng
        seats luggage direction = none →
      ∀ p ∈ availablePools,
        calculateDetour dist p pickupLat pickupLng dropoffLat dropoffLng direction = ⊤) :=
  ⟨fun q hq =>
    ⟨(findBestPool_some_spec dist availablePools pickupLat pickupLng
        dropoffLat dropoffLng seats luggage direction q hq).1,
      (findBestPool_some_spec dist availablePools pickupLat pickupLng
        dropoffLat dropoffLng seats luggage direction q hq).2,
      findBestPool_first_spec dist availablePools pickupLat pickupLng
        dropoffLat dropoffLng seats luggage direction q hq⟩,
    fun hn => findBestPool_none_spec dist availablePools pickupLat pickupLng
      dropoffLat dropoffLng seats luggage direction hn⟩

/-- Witness for C3 amended: on the singleton candidate list the selected
pool is a member scoring no worse than every candidate, and nothing precedes
it in the search order. -/
theorem claim3_min_detour_selection_witness :
    exDetourPool ∈ [exDetourPool] ∧
    (∀ p ∈ [exDetourPool],
      calculateDetour taxicab exDetourPool 0 10 0 2 Direction.city_to_airport
        ≤ calculateDetour taxicab p 0 10 0 2 Direction.city_to_airport) ∧
    ∃ pre post, [exDetourPool] = pre ++ exDetourPool :: post ∧
      ∀ p ∈ pre,
        calculateDetour taxicab exDetourPool 0 10 0 2 Direction.city_to_airport
          < calculateDetour taxicab p 0 10 0 2 Direction.city_to_airport :=
  (claim3_min_detour_selection taxicab [exDetourPool] 0 10 0 2 1 1
    Direction.city_to_airport).1 exDetourPool exDetourPool_best

-- ===========================================================================
-- Claim C10
-- ===========================================================================

/-- C10: a candidate pool whose stored waypoint list has fewer than two
entries scores detour 0 regardless of the new ride's coordinates, so
`findBestPool` returns a candidate scoring at most 0 and never returns any
candidate with strictly positive detour. -/
theorem claim10_small_pool_wins (dist : Dist) (availablePools : List Pool)
    (pickupLat pickupLng dropoffLat dropoffLng : ℚ) (seats luggage : ℤ)
    (direction : Direction) (p : Pool)
    (hmem : p ∈ availablePools) (hlen : p.waypoints.length < 2) :
    calculateDetour dist p pickupLat pickupLng dropoffLat dropoffLng direction
      = ((0 : ℚ) : WithTop ℚ) ∧
    (∃ q, findBestPool dist availablePools pickupLat pickupLng dropoffLat dropoffLng
        seats luggage direction = some q ∧
      calculateDetour dist q pickupLat pickupLng dropoffLat dropoffLng direction
        ≤ ((0 : ℚ) : WithTop ℚ)) ∧
    ∀ r ∈ availablePools,
      ((0 : ℚ) : WithTop ℚ)
          < calculateDetour dist r pickupLat pickupLng dropoffLat dropoffLng direction →
        findBestPool dist availablePools pickupLat pickupLng dropoffLat dropoffLng
          seats luggage direction ≠ some r := by
  have hsc : calculateDetour dist p pickupLat pickupLng dropoffLat dropoffLng direction
      = ((0 : ℚ) : WithTop ℚ) := by
    unfold calculateDetour
    rw [if_pos hlen]
  cases hres : findBestPool dist availablePools pickupLat pickupLng dropoffLat dropoffLng
      seats luggage direction with
  | none =>
    exfalso
    have := findBestPool_none_spec dist availablePools pickupLat pickupLng
      dropoffLat dropoffLng seats luggage direction hres p hmem
    rw [hsc] at this
    exact WithTop.coe_ne_top this
  | some q =>
    obtain ⟨hqmem, hall⟩ := findBestPool_some_spec dist availablePools pickupLat pickupLng
      dropoffLat dropoffLng seats luggage direction q hres
    have hq0 : calculateDetour dist q pickupLat pickupLng dropoffLat dropoffLng direction
        ≤ ((0 : ℚ) : WithTop ℚ) := hsc ▸ hall p hmem
    refine ⟨hsc, ⟨q, rfl, hq0⟩, fun r hr h0 hEq => ?_⟩
    injection hEq with hEq
    subst hEq
    exact absurd h0 (not_lt.mpr hq0)

/-- Witness for C10: the empty-waypoint pool `exPool` as sole candidate. -/
theorem claim10_small_pool_wins_witness :
    calculateDetour taxicab exPool 0 10 0 2 Direction.city_to_airport
      = ((0 : ℚ) : WithTop ℚ) ∧
    (∃ q, findBestPool taxicab [exPool] 0 10 0 2 1 1 Direction.city_to_airport
        = some q ∧
      calculateDetour taxicab q 0 10 0 2 Direction.city_to_airport
        ≤ ((0 : ℚ) : WithTop ℚ)) ∧
    ∀ r ∈ [exPool],
      ((0 : ℚ) : WithTop ℚ) < calculateDetour taxicab r 0 10 0 2 Direction.city_to_airport →
        findBestPool taxicab [exPool] 0 10 0 2 1 1 Direction.city_to_airport ≠ some r :=
  claim10_small_pool_wins taxicab [exPool] 0 10 0 2 1 1 Direction.city_to_airport exPool
    (by simp) (by decide)

end Alike
